import Mathlib

/-!
Shallow embedding of the Savoria backend (`src/backend/main.py`).

Timestamps (`created_time`) are ISO-8601 strings and the Python code compares
them with string comparison, so the embedding keeps them as `String` and uses
the lexicographic order on `String`.

The upstream NeoDB service is modelled as a total function
`upstream : String → Nat → String → RawResp` taking the category, the page
number and the shelf type to the parsed JSON body of the HTTP response.
A response body that lacks the `"data"` field is modelled by
`data? = none`; the Python code raises `Exception(result)` in that case,
which the embedding renders as `Except.error`.

The pagination loop of `get_completed_items_this_year` has no syntactic
termination measure (its bound comes from the reported page count), so it is
embedded with an explicit fuel argument: the result `Option.none` means the
fuel ran out before the Python loop would have returned.  All successful
results carry the number of upstream fetches performed, which equals the
number of the last page fetched (the code fetches pages 1, 2, … in order,
one fetch per page).
-/

namespace Savoria

/-- Kernel-reducible decidability for the lexicographic order on `String`
(Python compares timestamps by code points, which is the same order). -/
instance strDecLT (a b : String) : Decidable (a < b) :=
  decidable_of_iff (a.data < b.data) String.lt_iff_toList_lt.symm

/-- Kernel-reducible decidability for `≤` on `String`. -/
instance strDecLE (a b : String) : Decidable (a ≤ b) :=
  decidable_of_iff (a.data ≤ b.data) String.le_iff_toList_le.symm

/-- Decidable equality of `Except` results, for evaluating the embedding on
concrete inputs. -/
instance exceptDecEq {ε α : Type} [DecidableEq ε] [DecidableEq α] : DecidableEq (Except ε α) :=
  fun a b =>
    match a, b with
    | .error x, .error y => decidable_of_iff (x = y) (by simp)
    | .error _, .ok _ => isFalse (by simp)
    | .ok _, .error _ => isFalse (by simp)
    | .ok x, .ok y => decidable_of_iff (x = y) (by simp)

/-- The nested `"item"` object of a shelf entry. -/
structure InnerItem where
  id : String
  display_title : String
  cover_image_url : String
deriving DecidableEq, Repr

/-- One element of a shelf page's `"data"` array: a mark with its timestamp
and the nested item. -/
structure ShelfItem where
  created_time : String
  item : InnerItem
deriving DecidableEq, Repr

/-- The parsed JSON body of an upstream response.  `data? = none` models a
body with no `"data"` field. -/
structure RawResp where
  data? : Option (List ShelfItem)
  count : Nat
  pages : Nat
deriving DecidableEq, Repr

def JPG_THUMBNAIL_SUFFIX : String := ".200x200_q85_autocrop_crop-scale.jpg"

def PNG_THUMBNAIL_SUFFIX : String := ".200x200_q85_autocrop_crop-scale.png"

/-- `get_start_date_of_year`: the Python default `year=0` (and an empty path
segment) is falsy, in which case `date.today().year` is used; the embedding
passes the current year in explicitly and renders the falsy case as `""`. -/
def get_start_date_of_year (year currentYear : String) : String :=
  (if year = "" then currentYear else year) ++ "-01-01T00:00:00Z"

/-- `get_end_date_of_year`, with the same treatment of the falsy default. -/
def get_end_date_of_year (year currentYear : String) : String :=
  (if year = "" then currentYear else year) ++ "-12-31T23:59:59Z"

/-- Python's `s.endswith(t)`: `t` is a suffix of `s` (`String.endsWith`
computes the same thing but via byte positions, which the kernel cannot
evaluate; the character-list form is used instead). -/
def ends_with (s t : String) : Bool :=
  t.data.isSuffixOf s.data

/-- The cover-image rewrite applied to each fetched item's
`cover_image_url`. -/
def process_cover (url : String) : String :=
  if ends_with url ".jpg" then url ++ JPG_THUMBNAIL_SUFFIX
  else if ends_with url ".png" then url ++ PNG_THUMBNAIL_SUFFIX
  else url

/-- The in-place mutation `item["item"]["cover_image_url"] = ...` performed
by `get_shelf_items_from_neodb` on each element of the page. -/
def process_item (it : ShelfItem) : ShelfItem :=
  { it with item := { it.item with cover_image_url := process_cover it.item.cover_image_url } }

/-- A successfully parsed and post-processed shelf page. -/
structure ShelfPage where
  data : List ShelfItem
  count : Nat
  pages : Nat
deriving DecidableEq, Repr

/-- `get_shelf_items_from_neodb(category, page, shelf_type)`: raises
(`Except.error`) exactly when the parsed body lacks `"data"`, and otherwise
returns the body with every item's cover URL rewritten. -/
def get_shelf_items_from_neodb (upstream : String → Nat → String → RawResp)
    (category : String) (page : Nat) (shelf_type : String) : Except RawResp ShelfPage :=
  let result := upstream category page shelf_type
  match result.data? with
  | none => .error result
  | some items => .ok { data := items.map process_item, count := result.count, pages := result.pages }

/-- `completed_items[-1]["created_time"] < start_date`: the Python code only
evaluates this on a non-empty list (short-circuit on page 1, loop invariant
afterwards); the `none` branch is unreachable there. -/
def last_created_lt (items : List ShelfItem) (startD : String) : Bool :=
  match items.getLast? with
  | some it => decide (it.created_time < startD)
  | none => false

/-- The four-way stop test performed right after fetching page 1. -/
def first_stop (resp : ShelfPage) (startD : String) : Bool :=
  resp.data.isEmpty || resp.count == resp.data.length || resp.pages == 1
    || last_created_lt resp.data startD

/-- The final filter `start <= item["created_time"] <= end` (both ends
inclusive, string comparison). -/
def in_window (startD endD : String) (it : ShelfItem) : Bool :=
  decide (startD ≤ it.created_time) && decide (it.created_time ≤ endD)

def window_filter (startD endD : String) (items : List ShelfItem) : List ShelfItem :=
  items.filter (in_window startD endD)

/-- The `while True` loop of `get_completed_items_this_year`, entered with
`current_page` pages already fetched and accumulated in `acc`.  Fuel bounds
the number of iterations; the loop itself has no syntactic bound.  On
success the second component is the number of the last page fetched, which
equals the total number of upstream fetches performed. -/
def fetch_loop (fetchP : Nat → Except RawResp ShelfPage) (startD endD : String)
    (total : Nat) : Nat → Nat → List ShelfItem → Except (RawResp × Nat) (Option (List ShelfItem × Nat))
  | 0, _, _ => .ok none
  | fuel + 1, current_page, acc =>
    match fetchP (current_page + 1) with
    | .error r => .error (r, current_page + 1)
    | .ok page =>
      let acc2 := acc ++ page.data
      if current_page + 1 == total || last_created_lt acc2 startD then
        .ok (some (window_filter startD endD acc2, current_page + 1))
      else fetch_loop fetchP startD endD total fuel (current_page + 1) acc2

/-- The body of `get_completed_items_this_year` after the category check:
fetch page 1, apply the first stop test, else loop with
`total = resp["pages"]`. -/
def aggregate_year (fetchP : Nat → Except RawResp ShelfPage) (startD endD : String)
    (fuel : Nat) : Except (RawResp × Nat) (Option (List ShelfItem × Nat)) :=
  match fetchP 1 with
  | .error r => .error (r, 1)
  | .ok resp =>
    if first_stop resp startD then
      .ok (some (window_filter startD endD resp.data, 1))
    else fetch_loop fetchP startD endD resp.pages fuel 1 resp.data

def valid_category (c : String) : Bool :=
  ["book", "music", "game", "movie", "tv"].contains c

/-- The route's result: either the 400 "invalid category" reply or the JSON
`{"data": [...]}` payload. -/
inductive YearResponse where
  | invalid
  | payload (data : List ShelfItem)
deriving DecidableEq, Repr

/-- The page-fetching function used throughout the aggregation: shelf type is
always `"complete"`. -/
def shelf_fetch (upstream : String → Nat → String → RawResp) (category : String) :
    Nat → Except RawResp ShelfPage :=
  fun page => get_shelf_items_from_neodb upstream category page "complete"

/-- `get_completed_items_this_year(category, year)`. -/
def get_completed_items_this_year (upstream : String → Nat → String → RawResp)
    (category year currentYear : String) (fuel : Nat) :
    Except (RawResp × Nat) (Option (YearResponse × Nat)) :=
  if valid_category category then
    match aggregate_year (shelf_fetch upstream category)
        (get_start_date_of_year year currentYear) (get_end_date_of_year year currentYear) fuel with
    | .error e => .error e
    | .ok none => .ok none
    | .ok (some (d, n)) => .ok (some (.payload d, n))
  else .ok (some (.invalid, 0))

/-- The descending order on `created_time` used by
`sorted(..., key=lambda x: x["created_time"], reverse=True)`. -/
def created_desc (a b : ShelfItem) : Prop :=
  b.created_time ≤ a.created_time

instance : DecidableRel created_desc :=
  fun a b => strDecLE b.created_time a.created_time

instance : IsTotal ShelfItem created_desc :=
  ⟨fun a b => le_total b.created_time a.created_time⟩

instance : IsTrans ShelfItem created_desc :=
  ⟨fun _ _ _ hab hbc => le_trans hbc hab⟩

/-- Python's `sorted` is a stable sort; a stable sort is determined uniquely
by its comparison preorder, so the embedding may use any stable sorting
algorithm.  `List.insertionSort` is stable (ties keep their original order),
which the theorems below establish via filter preservation. -/
def sort_created_desc (l : List ShelfItem) : List ShelfItem :=
  List.insertionSort created_desc l

/-- The inner helper `fetch_category` of the screen endpoint:
`get_completed_items_this_year(category, year)["data"]` for the always-valid
literal categories `"movie"` and `"tv"`. -/
def fetch_category (upstream : String → Nat → String → RawResp)
    (category year currentYear : String) (fuel : Nat) :
    Except (RawResp × Nat) (Option (List ShelfItem × Nat)) :=
  aggregate_year (shelf_fetch upstream category)
    (get_start_date_of_year year currentYear) (get_end_date_of_year year currentYear) fuel

/-- `get_completed_screen_items_this_year(year)`: both categories are
aggregated; `movie_future.result()` is awaited first, so a movie-side
exception propagates first, then a tv-side one; on success the merged list is
sorted by `created_time` descending. -/
def get_completed_screen_items_this_year (upstream : String → Nat → String → RawResp)
    (year currentYear : String) (fuel : Nat) :
    Except (RawResp × Nat) (Option (List ShelfItem × Nat)) :=
  match fetch_category upstream "movie" year currentYear fuel with
  | .error e => .error e
  | .ok none => .ok none
  | .ok (some (movies, nm)) =>
    match fetch_category upstream "tv" year currentYear fuel with
    | .error e => .error e
    | .ok none => .ok none
    | .ok (some (tvs, nt)) => .ok (some (sort_created_desc (movies ++ tvs), nm + nt))

/-- The items of page `j` as delivered to the aggregation (post-processed);
`[]` for a page whose fetch raises. -/
def page_items (fetchP : Nat → Except RawResp ShelfPage) (j : Nat) : List ShelfItem :=
  match fetchP j with
  | .ok p => p.data
  | .error _ => []

/-- The accumulated `completed_items` list after pages `1 .. j` have been
fetched. -/
def acc_through (fetchP : Nat → Except RawResp ShelfPage) : Nat → List ShelfItem
  | 0 => []
  | j + 1 => acc_through fetchP j ++ page_items fetchP (j + 1)

/-- Bool-valued bound on the number of upstream fetches recorded in an
aggregation outcome; `false` for a fuel-exhausted run. -/
def fetches_bounded (out : Except (RawResp × Nat) (Option (YearResponse × Nat))) (B : Nat) : Bool :=
  match out with
  | .error (_, n) => n ≤ B
  | .ok none => false
  | .ok (some (_, n)) => n ≤ B

/-! ### Concrete upstream instances used as test inputs -/

/-- A mark at the given time whose cover URL has no rewritable extension, so
post-processing leaves it unchanged. -/
def mkItem (ct : String) : ShelfItem :=
  { created_time := ct, item := { id := "id", display_title := "title", cover_image_url := "cover" } }

/-- An upstream that reports `pages = 0` while always returning one fresh
item: the pagination loop never meets either of its stop conditions. -/
def pages_zero_upstream : String → Nat → String → RawResp :=
  fun _ _ _ => { data? := some [mkItem "2024-06-01T00:00:00Z"], count := 2, pages := 0 }

/-- Three pages; the second one is empty but the loop keeps fetching. -/
def c1_upstream : String → Nat → String → RawResp :=
  fun _ page _ =>
    if page = 1 then { data? := some [mkItem "2024-06-01T00:00:00Z"], count := 5, pages := 3 }
    else if page = 2 then { data? := some [], count := 5, pages := 3 }
    else { data? := some [mkItem "2024-05-01T00:00:00Z"], count := 5, pages := 3 }

/-- Newest-first, non-increasing pages whose first page reports a `count`
equal to its own length (inconsistent with the later pages). -/
def c2_upstream : String → Nat → String → RawResp :=
  fun _ page _ =>
    if page = 1 then { data? := some [mkItem "2024-06-01T00:00:00Z"], count := 1, pages := 5 }
    else { data? := some [mkItem "2023-06-01T00:00:00Z"], count := 1, pages := 5 }

/-- A consistent two-page shelf (3 items in total) whose second page is the
first to dip below the 2024 window. -/
def consistent_upstream : String → Nat → String → RawResp :=
  fun _ page _ =>
    if page = 1 then
      { data? := some [mkItem "2024-07-01T00:00:00Z", mkItem "2024-03-01T00:00:00Z"],
        count := 3, pages := 2 }
    else { data? := some [mkItem "2023-06-01T00:00:00Z"], count := 3, pages := 2 }

/-- Two pages with items exactly on both window boundaries of 2024 plus one
older item on the boundary-detecting page. -/
def boundary_upstream : String → Nat → String → RawResp :=
  fun _ page _ =>
    if page = 1 then
      { data? := some [mkItem "2024-12-31T23:59:59Z", mkItem "2024-01-01T00:00:00Z"],
        count := 3, pages := 2 }
    else { data? := some [mkItem "2023-12-31T23:59:59Z"], count := 3, pages := 2 }

/-- An upstream whose first page is empty. -/
def empty_first_page_upstream : String → Nat → String → RawResp :=
  fun _ _ _ => { data? := some [], count := 0, pages := 0 }

/-- An upstream whose response has no `"data"` field. -/
def no_data_upstream : String → Nat → String → RawResp :=
  fun _ _ _ => { data? := none, count := 0, pages := 0 }

/-- Single-page movie shelf at [T3, T1] and tv shelf at [T2, T4] with
T4 > T3 > T2 > T1, all within 2024. -/
def screen_merge_upstream : String → Nat → String → RawResp :=
  fun category _ _ =>
    if category = "movie" then
      { data? := some [mkItem "2024-03-05T00:00:00Z", mkItem "2024-01-05T00:00:00Z"],
        count := 2, pages := 1 }
    else
      { data? := some [mkItem "2024-02-05T00:00:00Z", mkItem "2024-04-05T00:00:00Z"],
        count := 2, pages := 1 }

/-- The movie category answers with a malformed body; tv is fine. -/
def movie_error_upstream : String → Nat → String → RawResp :=
  fun category _ _ =>
    if category = "movie" then { data? := none, count := 0, pages := 0 }
    else { data? := some [], count := 0, pages := 0 }

/-- The tv category answers with a malformed body; movie is fine. -/
def tv_error_upstream : String → Nat → String → RawResp :=
  fun category _ _ =>
    if category = "tv" then { data? := none, count := 0, pages := 0 }
    else { data? := some [], count := 0, pages := 0 }

/-- One page whose items carry `.jpg`, `.png` and `.webp` cover URLs. -/
def mixed_covers_upstream : String → Nat → String → RawResp :=
  fun _ _ _ =>
    { data? := some
        [{ created_time := "2024-05-01T00:00:00Z",
           item := { id := "a", display_title := "A", cover_image_url := "https://x/a.jpg" } },
         { created_time := "2024-04-01T00:00:00Z",
           item := { id := "b", display_title := "B", cover_image_url := "https://x/b.png" } },
         { created_time := "2024-03-01T00:00:00Z",
           item := { id := "c", display_title := "C", cover_image_url := "https://x/c.webp" } }],
      count := 3, pages := 1 }

/-! ### Helper lemmas about the pagination loop -/

theorem page_items_of_ok {fetchP : Nat → Except RawResp ShelfPage} {j : Nat} {p : ShelfPage}
    (h : fetchP j = .ok p) : page_items fetchP j = p.data := by
  simp [page_items, h]

theorem acc_through_succ_of_ok {fetchP : Nat → Except RawResp ShelfPage} {c : Nat}
    {page : ShelfPage} (h : fetchP (c + 1) = .ok page) :
    acc_through fetchP (c + 1) = acc_through fetchP c ++ page.data := by
  simp [acc_through, page_items_of_ok h]

theorem last_created_lt_append {l₁ l₂ : List ShelfItem} {s : String} (h : l₂ ≠ []) :
    last_created_lt (l₁ ++ l₂) s = last_created_lt l₂ s := by
  simp [last_created_lt, List.getLast?_append_of_ne_nil _ h]

/-- Full characterization of a successful run of the `while True` loop that
starts with pages `1 .. c` accumulated: the run fetched pages `c+1 .. n`, no
page before the last satisfied the loop's stop test, the last one did, and
the returned data is the window filter of everything accumulated. -/
theorem fetch_loop_spec (fetchP : Nat → Except RawResp ShelfPage) (startD endD : String)
    (total : Nat) :
    ∀ fuel c d n,
      fetch_loop fetchP startD endD total fuel c (acc_through fetchP c) = .ok (some (d, n)) →
      c + 1 ≤ n ∧
      d = window_filter startD endD (acc_through fetchP n) ∧
      (∀ j, c + 1 ≤ j → j ≤ n → ∃ p, fetchP j = .ok p) ∧
      (∀ j, c + 1 ≤ j → j < n →
        ¬(j = total ∨ last_created_lt (acc_through fetchP j) startD = true)) ∧
      (n = total ∨ last_created_lt (acc_through fetchP n) startD = true) := by
  intro fuel
  induction fuel with
  | zero => intro c d n h; simp [fetch_loop] at h
  | succ fuel ih =>
    intro c d n h
    rw [fetch_loop] at h
    cases hfp : fetchP (c + 1) with
    | error r => rw [hfp] at h; simp at h
    | ok page =>
      rw [hfp] at h
      simp only at h
      rw [← acc_through_succ_of_ok hfp] at h
      by_cases hcond : (c + 1 == total || last_created_lt (acc_through fetchP (c + 1)) startD) = true
      · rw [if_pos hcond] at h
        simp only [Except.ok.injEq, Option.some.injEq, Prod.mk.injEq] at h
        obtain ⟨hd, hn⟩ := h
        subst hn
        refine ⟨le_refl _, hd.symm, ?_, ?_, ?_⟩
        · intro j h1 h2
          have : j = c + 1 := le_antisymm h2 h1
          exact ⟨page, this ▸ hfp⟩
        · intro j h1 h2; omega
        · rcases Bool.or_eq_true_iff.mp hcond with h' | h'
          · exact Or.inl (beq_iff_eq.mp h')
          · exact Or.inr h'
      · rw [if_neg hcond] at h
        obtain ⟨h1, h2, h3, h4, h5⟩ := ih (c + 1) d n h
        have hcond' := Bool.or_eq_false_iff.mp (Bool.not_eq_true _ ▸ hcond)
        refine ⟨by omega, h2, ?_, ?_, h5⟩
        · intro j hj1 hj2
          rcases Nat.eq_or_lt_of_le hj1 with hj | hj
          · exact ⟨page, hj ▸ hfp⟩
          · exact h3 j hj hj2
        · intro j hj1 hj2
          rcases Nat.eq_or_lt_of_le hj1 with hj | hj
          · subst hj
            rintro (h' | h')
            · have hb := hcond'.1
              rw [h'] at hb
              simp at hb
            · rw [hcond'.2] at h'
              exact Bool.false_ne_true h'
          · exact h4 j hj hj2

/-- Characterization of a successful aggregation: either the first page's
stop test fired and exactly one fetch happened, or pages `2 .. n` were also
fetched, none of the intermediate pages satisfied the loop's stop test, and
page `n` did. -/
theorem aggregate_year_spec {fetchP : Nat → Except RawResp ShelfPage} {startD endD : String}
    {fuel : Nat} {d : List ShelfItem} {n : Nat}
    (h : aggregate_year fetchP startD endD fuel = .ok (some (d, n))) :
    ∃ resp, fetchP 1 = .ok resp ∧ acc_through fetchP 1 = resp.data ∧
      ((first_stop resp startD = true ∧ n = 1 ∧ d = window_filter startD endD resp.data) ∨
       (first_stop resp startD = false ∧ 2 ≤ n ∧
         d = window_filter startD endD (acc_through fetchP n) ∧
         (∀ j, 2 ≤ j → j ≤ n → ∃ p, fetchP j = .ok p) ∧
         (∀ j, 2 ≤ j → j < n →
           ¬(j = resp.pages ∨ last_created_lt (acc_through fetchP j) startD = true)) ∧
         (n = resp.pages ∨ last_created_lt (acc_through fetchP n) startD = true))) := by
  rw [aggregate_year] at h
  cases hfp : fetchP 1 with
  | error r => rw [hfp] at h; simp at h
  | ok resp =>
    rw [hfp] at h
    simp only at h
    have hacc1 : acc_through fetchP 1 = resp.data := by
      simp [acc_through, page_items_of_ok hfp]
    refine ⟨resp, rfl, hacc1, ?_⟩
    by_cases hstop : first_stop resp startD = true
    · rw [if_pos hstop] at h
      simp only [Except.ok.injEq, Option.some.injEq, Prod.mk.injEq] at h
      exact Or.inl ⟨hstop, h.2.symm, h.1.symm⟩
    · rw [if_neg hstop] at h
      rw [← hacc1] at h
      obtain ⟨h1, h2, h3, h4, h5⟩ := fetch_loop_spec fetchP startD endD resp.pages fuel 1 d n h
      exact Or.inr ⟨Bool.not_eq_true _ ▸ hstop, h1, h2, h3, h4, h5⟩

theorem get_completed_items_valid_eq {upstream : String → Nat → String → RawResp}
    {category year currentYear : String} {fuel : Nat}
    (h : valid_category category = true) :
    get_completed_items_this_year upstream category year currentYear fuel =
      match aggregate_year (shelf_fetch upstream category)
          (get_start_date_of_year year currentYear)
          (get_end_date_of_year year currentYear) fuel with
      | .error e => .error e
      | .ok none => .ok none
      | .ok (some (d, n)) => .ok (some (.payload d, n)) := by
  rw [get_completed_items_this_year, if_pos h]

theorem get_completed_items_payload_inv {upstream : String → Nat → String → RawResp}
    {category year currentYear : String} {fuel : Nat} {d : List ShelfItem} {n : Nat}
    (hv : valid_category category = true)
    (h : get_completed_items_this_year upstream category year currentYear fuel
          = .ok (some (.payload d, n))) :
    aggregate_year (shelf_fetch upstream category)
      (get_start_date_of_year year currentYear)
      (get_end_date_of_year year currentYear) fuel = .ok (some (d, n)) := by
  rw [get_completed_items_valid_eq hv] at h
  cases hagg : aggregate_year (shelf_fetch upstream category)
      (get_start_date_of_year year currentYear)
      (get_end_date_of_year year currentYear) fuel with
  | error e => rw [hagg] at h; simp at h
  | ok o =>
    rw [hagg] at h
    cases o with
    | none => simp at h
    | some dn =>
      obtain ⟨d', n'⟩ := dn
      simp only [Except.ok.injEq, Option.some.injEq, Prod.mk.injEq, YearResponse.payload.injEq] at h
      rw [h.1, h.2]

/-- With the loop's page counter strictly below `total` and enough fuel, the
loop finishes (successfully or by propagating an upstream failure) after at
most `total` fetches in all. -/
theorem fetch_loop_bounded (fetchP : Nat → Except RawResp ShelfPage) (startD endD : String)
    (total : Nat) :
    ∀ fuel c acc, c < total → total ≤ c + fuel →
      (∃ r n, fetch_loop fetchP startD endD total fuel c acc = .error (r, n) ∧ n ≤ total) ∨
      (∃ d n, fetch_loop fetchP startD endD total fuel c acc = .ok (some (d, n)) ∧ n ≤ total) := by
  intro fuel
  induction fuel with
  | zero => intro c acc h1 h2; omega
  | succ fuel ih =>
    intro c acc h1 h2
    rw [fetch_loop]
    cases hfp : fetchP (c + 1) with
    | error r => exact Or.inl ⟨r, c + 1, rfl, by omega⟩
    | ok page =>
      simp only
      by_cases hcond : (c + 1 == total || last_created_lt (acc ++ page.data) startD) = true
      · rw [if_pos hcond]
        exact Or.inr ⟨_, c + 1, rfl, by omega⟩
      · rw [if_neg hcond]
        have hne : ¬(c + 1 = total) := by
          intro h
          apply hcond
          rw [h]
          simp
        exact ih (c + 1) (acc ++ page.data) (by omega) (by omega)

theorem acc_through_length_mono (fetchP : Nat → Except RawResp ShelfPage) :
    ∀ {m n : Nat}, m ≤ n → (acc_through fetchP m).length ≤ (acc_through fetchP n).length := by
  intro m n h
  induction n with
  | zero => simp [Nat.le_zero.mp h, le_refl]
  | succ n ih =>
    rcases Nat.lt_or_ge m (n + 1) with h' | h'
    · calc (acc_through fetchP m).length ≤ (acc_through fetchP n).length := ih (by omega)
        _ ≤ (acc_through fetchP (n + 1)).length := by
            simp [acc_through]
    · have : m = n + 1 := by omega
      simp [this, le_refl]

/-- If every page up to `K` fetches successfully and is non-empty, no page
before `K` dips below the window start but page `K` does, and `K ≤ total`,
then the loop started after page `c < K` stops exactly at page `K`. -/
theorem fetch_loop_reaches (fetchP : Nat → Except RawResp ShelfPage) (startD endD : String)
    (total K : Nat) (hKtot : K ≤ total)
    (hok : ∀ j, 2 ≤ j → j ≤ K → ∃ p, fetchP j = .ok p ∧ p.data ≠ [])
    (hbefore : ∀ j, 1 ≤ j → j < K → last_created_lt (page_items fetchP j) startD = false)
    (hhit : last_created_lt (page_items fetchP K) startD = true) :
    ∀ fuel c, 1 ≤ c → c < K → K ≤ c + fuel →
      fetch_loop fetchP startD endD total fuel c (acc_through fetchP c)
        = .ok (some (window_filter startD endD (acc_through fetchP K), K)) := by
  intro fuel
  induction fuel with
  | zero => intro c h1 h2 h3; omega
  | succ fuel ih =>
    intro c h1 h2 h3
    obtain ⟨page, hfp, hne⟩ := hok (c + 1) (by omega) (by omega)
    rw [fetch_loop, hfp]
    simp only
    rw [← acc_through_succ_of_ok hfp]
    have hlast : last_created_lt (acc_through fetchP (c + 1)) startD
        = last_created_lt (page_items fetchP (c + 1)) startD := by
      rw [acc_through_succ_of_ok hfp, last_created_lt_append hne, page_items_of_ok hfp]
    rcases Nat.eq_or_lt_of_le (show c + 1 ≤ K by omega) with hK | hK
    · have hcond : (c + 1 == total || last_created_lt (acc_through fetchP (c + 1)) startD) = true := by
        rw [hlast, hK, hhit]
        simp
      rw [if_pos hcond, hK]
    · have hcond : (c + 1 == total || last_created_lt (acc_through fetchP (c + 1)) startD) = false := by
        rw [hlast, hbefore (c + 1) (by omega) hK]
        simp
        omega
      rw [if_neg (by simp [hcond])]
      exact ih (c + 1) (by omega) hK (by omega)

/-- Against `pages_zero_upstream` the loop never meets a stop condition:
every fuel value is exhausted. -/
theorem pages_zero_loop (endD : String) :
    ∀ fuel c acc,
      fetch_loop (shelf_fetch pages_zero_upstream "book") "2024-01-01T00:00:00Z" endD 0 fuel c acc
        = .ok none := by
  intro fuel
  induction fuel with
  | zero => intro c acc; rfl
  | succ fuel ih =>
    intro c acc
    have hfp : shelf_fetch pages_zero_upstream "book" (c + 1)
        = .ok { data := [process_item (mkItem "2024-06-01T00:00:00Z")], count := 2, pages := 0 } := rfl
    rw [fetch_loop, hfp]
    simp only
    have hcond : ((c + 1 == 0)
        || last_created_lt (acc ++ [process_item (mkItem "2024-06-01T00:00:00Z")])
            "2024-01-01T00:00:00Z") = false := by
      rw [last_created_lt_append (by simp)]
      simp only [Bool.or_eq_false_iff]
      exact ⟨by simp, by decide⟩
    have hcond' : ¬((c + 1 == 0)
        || last_created_lt (acc ++ [process_item (mkItem "2024-06-01T00:00:00Z")])
            "2024-01-01T00:00:00Z") = true := by
      rw [hcond]
      simp
    rw [if_neg hcond']
    exact ih (c + 1) _

/-! ### Stability of the descending sort -/

theorem filter_ct_orderedInsert (a : ShelfItem) (t : String) :
    ∀ l, (List.orderedInsert created_desc a l).filter (fun x => x.created_time == t)
      = ((a :: l).filter (fun x => x.created_time == t)) := by
  intro l
  induction l with
  | nil => rfl
  | cons b l ih =>
    rw [List.orderedInsert]
    by_cases hr : created_desc a b
    · rw [if_pos hr]
    · rw [if_neg hr]
      by_cases hpa : (a.created_time == t) = true
      · have hab : a.created_time < b.created_time := not_le.mp hr
        have hpb : (b.created_time == t) = false := by
          rw [beq_eq_false_iff_ne]
          intro hb
          rw [hb, ← beq_iff_eq.mp hpa] at hab
          exact lt_irrefl _ hab
        simp [List.filter_cons, hpa, hpb, ih]
      · have hpa' : (a.created_time == t) = false := by
          simpa using hpa
        simp [List.filter_cons, hpa', ih]

theorem filter_ct_sort_created_desc (t : String) :
    ∀ l, (sort_created_desc l).filter (fun x => x.created_time == t)
      = l.filter (fun x => x.created_time == t) := by
  intro l
  induction l with
  | nil => rfl
  | cons x xs ih =>
    rw [sort_created_desc, List.insertionSort, filter_ct_orderedInsert]
    rw [sort_created_desc] at ih
    simp [List.filter_cons, ih]

/-! ### Claim theorems -/

/-- C5: `get_shelf_items_from_neodb` raises if and only if the parsed
upstream response lacks a `data` field (and the raised value is that
response); consequently a year request whose first-page response lacks
`data` fails with that error instead of returning an empty payload. -/
theorem claim_C5 :
    (∀ (upstream : String → Nat → String → RawResp) (category : String) (page : Nat)
        (shelf_type : String) (r : RawResp),
      get_shelf_items_from_neodb upstream category page shelf_type = .error r ↔
        ((upstream category page shelf_type).data? = none ∧
          r = upstream category page shelf_type)) ∧
    (∀ (upstream : String → Nat → String → RawResp) (category year currentYear : String)
        (fuel : Nat),
      valid_category category = true →
      (upstream category 1 "complete").data? = none →
      get_completed_items_this_year upstream category year currentYear fuel
        = .error (upstream category 1 "complete", 1)) := by
  constructor
  · intro upstream category page shelf_type r
    cases hd : (upstream category page shelf_type).data? with
    | none => simp [get_shelf_items_from_neodb, hd, eq_comm]
    | some its => simp [get_shelf_items_from_neodb, hd]
  · intro upstream category year currentYear fuel hv hd
    rw [get_completed_items_valid_eq hv]
    have hfp : shelf_fetch upstream category 1 = .error (upstream category 1 "complete") := by
      simp [shelf_fetch, get_shelf_items_from_neodb, hd]
    rw [aggregate_year, hfp]

/-- Witness for C5 at a data-less upstream. -/
theorem claim_C5_witness :
    get_completed_items_this_year no_data_upstream "book" "2024" "2024" 3
      = .error ({ data? := none, count := 0, pages := 0 }, 1) :=
  claim_C5.2 no_data_upstream "book" "2024" "2024" 3 (by decide) rfl

/-- C8: on a well-formed upstream page the returned page is the input with
each item's cover URL rewritten by `process_cover` (order, length, `count`
and `pages` kept); `process_cover` appends the jpg suffix exactly once to a
`.jpg` URL, the png suffix to a `.png` URL, and keeps other URLs unchanged;
no other item field is modified. -/
theorem claim_C8 (upstream : String → Nat → String → RawResp) (category : String)
    (page : Nat) (shelf_type : String) (its : List ShelfItem)
    (hd : (upstream category page shelf_type).data? = some its) :
    get_shelf_items_from_neodb upstream category page shelf_type
      = .ok { data := its.map process_item,
              count := (upstream category page shelf_type).count,
              pages := (upstream category page shelf_type).pages } ∧
    (∀ it, (process_item it).created_time = it.created_time ∧
      (process_item it).item.id = it.item.id ∧
      (process_item it).item.display_title = it.item.display_title ∧
      (process_item it).item.cover_image_url = process_cover it.item.cover_image_url) ∧
    (∀ url : String,
      (ends_with url ".jpg" = true → process_cover url = url ++ JPG_THUMBNAIL_SUFFIX) ∧
      (ends_with url ".jpg" = false → ends_with url ".png" = true →
        process_cover url = url ++ PNG_THUMBNAIL_SUFFIX) ∧
      (ends_with url ".jpg" = false → ends_with url ".png" = false →
        process_cover url = url)) := by
  refine ⟨?_, ?_, ?_⟩
  · simp [get_shelf_items_from_neodb, hd]
  · intro it
    exact ⟨rfl, rfl, rfl, rfl⟩
  · intro url
    refine ⟨?_, ?_, ?_⟩
    · intro h
      rw [process_cover, if_pos h]
    · intro h1 h2
      rw [process_cover, if_neg (by simp [h1]), if_pos h2]
    · intro h1 h2
      rw [process_cover, if_neg (by simp [h1]), if_neg (by simp [h2])]

/-- Witness for C8 on a page carrying `.jpg`, `.png` and `.webp` covers. -/
theorem claim_C8_witness :
    get_shelf_items_from_neodb mixed_covers_upstream "movie" 1 "complete"
      = .ok { count := 3, pages := 1,
              data :=
                [{ created_time := "2024-05-01T00:00:00Z",
                   item := { id := "a", display_title := "A",
                             cover_image_url := "https://x/a.jpg.200x200_q85_autocrop_crop-scale.jpg" } },
                 { created_time := "2024-04-01T00:00:00Z",
                   item := { id := "b", display_title := "B",
                             cover_image_url := "https://x/b.png.200x200_q85_autocrop_crop-scale.png" } },
                 { created_time := "2024-03-01T00:00:00Z",
                   item := { id := "c", display_title := "C",
                             cover_image_url := "https://x/c.webp" } }] } := by
  have h := (claim_C8 mixed_covers_upstream "movie" 1 "complete" _ rfl).1
  rw [h]
  decide

/-- C4: exactly one upstream fetch happens when the first page is empty (and
then the payload is `[]`), or reports `pages = 1`, or reports `count` equal
to its own number of items. -/
theorem claim_C4 (upstream : String → Nat → String → RawResp)
    (category year currentYear : String) (fuel : Nat) (its : List ShelfItem)
    (hv : valid_category category = true)
    (hd : (upstream category 1 "complete").data? = some its) :
    (its = [] → get_completed_items_this_year upstream category year currentYear fuel
        = .ok (some (.payload [], 1))) ∧
    ((upstream category 1 "complete").pages = 1 →
      ∃ d, get_completed_items_this_year upstream category year currentYear fuel
        = .ok (some (.payload d, 1))) ∧
    ((upstream category 1 "complete").count = its.length →
      ∃ d, get_completed_items_this_year upstream category year currentYear fuel
        = .ok (some (.payload d, 1))) := by
  have hfp : shelf_fetch upstream category 1
      = .ok { data := its.map process_item,
              count := (upstream category 1 "complete").count,
              pages := (upstream category 1 "complete").pages } := by
    simp [shelf_fetch, get_shelf_items_from_neodb, hd]
  refine ⟨?_, ?_, ?_⟩
  · intro h
    subst h
    rw [get_completed_items_valid_eq hv, aggregate_year, hfp]
    simp only
    rw [if_pos (by simp [first_stop])]
    rfl
  · intro h
    rw [get_completed_items_valid_eq hv, aggregate_year, hfp]
    simp only
    rw [if_pos (by simp [first_stop, h])]
    exact ⟨_, rfl⟩
  · intro h
    rw [get_completed_items_valid_eq hv, aggregate_year, hfp]
    simp only
    rw [if_pos (by simp [first_stop, h])]
    exact ⟨_, rfl⟩

/-- Witness for C4 at an empty first page. -/
theorem claim_C4_witness :
    get_completed_items_this_year empty_first_page_upstream "book" "2024" "2024" 3
      = .ok (some (.payload [], 1)) :=
  (claim_C4 empty_first_page_upstream "book" "2024" "2024" 3 [] (by decide) rfl).1 rfl

/-- C7: a failure of the movie aggregation, or of the tv aggregation when the
movie side succeeded, propagates out of the screen endpoint unchanged; no
partial result is produced. -/
theorem claim_C7 :
    (∀ (upstream : String → Nat → String → RawResp) (year currentYear : String)
        (fuel : Nat) (e : RawResp × Nat),
      fetch_category upstream "movie" year currentYear fuel = .error e →
      get_completed_screen_items_this_year upstream year currentYear fuel = .error e) ∧
    (∀ (upstream : String → Nat → String → RawResp) (year currentYear : String)
        (fuel : Nat) (x : List ShelfItem × Nat) (e : RawResp × Nat),
      fetch_category upstream "movie" year currentYear fuel = .ok (some x) →
      fetch_category upstream "tv" year currentYear fuel = .error e →
      get_completed_screen_items_this_year upstream year currentYear fuel = .error e) := by
  constructor
  · intro upstream year currentYear fuel e h
    rw [get_completed_screen_items_this_year, h]
  · intro upstream year currentYear fuel x e h1 h2
    obtain ⟨movies, nm⟩ := x
    rw [get_completed_screen_items_this_year, h1]
    simp only
    rw [h2]

/-- Witness for C7: a movie-side failure and a tv-side failure each abort the
screen endpoint. -/
theorem claim_C7_witness :
    get_completed_screen_items_this_year movie_error_upstream "2024" "2024" 3
        = .error ({ data? := none, count := 0, pages := 0 }, 1) ∧
    get_completed_screen_items_this_year tv_error_upstream "2024" "2024" 3
        = .error ({ data? := none, count := 0, pages := 0 }, 1) :=
  ⟨claim_C7.1 movie_error_upstream "2024" "2024" 3 _ (by decide),
   claim_C7.2 tv_error_upstream "2024" "2024" 3 ([], 1) _ (by decide) (by decide)⟩

/-- C6: when both category aggregations succeed, the screen endpoint returns
exactly the merged list sorted by `created_time` descending; the sorted list
is a permutation of the concatenation, is pairwise descending, and the sort
is stable (it preserves the relative order of items with equal timestamps,
expressed by filter preservation); in particular movie items at [T3, T1] and
tv items at [T2, T4] with T4 > T3 > T2 > T1 merge to [T4, T3, T2, T1]. -/
theorem claim_C6 :
    (∀ (upstream : String → Nat → String → RawResp) (year currentYear : String) (fuel : Nat)
        (movies : List ShelfItem) (nm : Nat) (tvs : List ShelfItem) (nt : Nat),
      fetch_category upstream "movie" year currentYear fuel = .ok (some (movies, nm)) →
      fetch_category upstream "tv" year currentYear fuel = .ok (some (tvs, nt)) →
      get_completed_screen_items_this_year upstream year currentYear fuel
          = .ok (some (sort_created_desc (movies ++ tvs), nm + nt)) ∧
        (sort_created_desc (movies ++ tvs)).Perm (movies ++ tvs) ∧
        List.Pairwise created_desc (sort_created_desc (movies ++ tvs)) ∧
        (∀ t, (sort_created_desc (movies ++ tvs)).filter (fun x => x.created_time == t)
            = (movies ++ tvs).filter (fun x => x.created_time == t))) ∧
    get_completed_screen_items_this_year screen_merge_upstream "2024" "2024" 1
      = .ok (some ([mkItem "2024-04-05T00:00:00Z", mkItem "2024-03-05T00:00:00Z",
          mkItem "2024-02-05T00:00:00Z", mkItem "2024-01-05T00:00:00Z"], 2)) := by
  constructor
  · intro upstream year currentYear fuel movies nm tvs nt h1 h2
    refine ⟨?_, ?_, ?_, ?_⟩
    · rw [get_completed_screen_items_this_year, h1]
      simp only
      rw [h2]
    · rw [sort_created_desc]
      exact List.perm_insertionSort created_desc _
    · rw [sort_created_desc]
      exact List.sorted_insertionSort created_desc _
    · intro t
      exact filter_ct_sort_created_desc t _
  · decide

/-- Witness for C6 at the concrete T1 < T2 < T3 < T4 configuration. -/
theorem claim_C6_witness :
    get_completed_screen_items_this_year screen_merge_upstream "2024" "2024" 1
      = .ok (some (sort_created_desc
          ([mkItem "2024-03-05T00:00:00Z", mkItem "2024-01-05T00:00:00Z"]
            ++ [mkItem "2024-02-05T00:00:00Z", mkItem "2024-04-05T00:00:00Z"]), 1 + 1)) :=
  (claim_C6.1 screen_merge_upstream "2024" "2024" 1
    [mkItem "2024-03-05T00:00:00Z", mkItem "2024-01-05T00:00:00Z"] 1
    [mkItem "2024-02-05T00:00:00Z", mkItem "2024-04-05T00:00:00Z"] 1
    (by decide) (by decide)).1

/-- C1 (amended): after page 1, fetching stops exactly when the first page's
four-way stop test holds (page empty, count equal to the page's item count,
pages equal to 1, or oldest item before the window start — at page 1 the
current page number equals the total pages exactly when pages = 1); after
every subsequent page, fetching stops exactly when the current page number
equals the first page's `pages` value or the last accumulated item is before
the window start; the emptiness, `count` and `pages` fields of subsequent
pages are not consulted. -/
theorem claim_C1 (upstream : String → Nat → String → RawResp)
    (category year currentYear : String) (fuel : Nat) (d : List ShelfItem) (n : Nat)
    (hv : valid_category category = true)
    (h : get_completed_items_this_year upstream category year currentYear fuel
        = .ok (some (.payload d, n))) :
    ∃ resp, shelf_fetch upstream category 1 = .ok resp ∧
      ((first_stop resp (get_start_date_of_year year currentYear) = true ∧ n = 1) ∨
       (first_stop resp (get_start_date_of_year year currentYear) = false ∧ 2 ≤ n ∧
        (∀ j, 2 ≤ j → j < n → j ≠ resp.pages ∧
          last_created_lt (acc_through (shelf_fetch upstream category) j)
            (get_start_date_of_year year currentYear) = false) ∧
        (n = resp.pages ∨
          last_created_lt (acc_through (shelf_fetch upstream category) n)
            (get_start_date_of_year year currentYear) = true))) := by
  have hagg := get_completed_items_payload_inv hv h
  obtain ⟨resp, hfp, hacc, hcase⟩ := aggregate_year_spec hagg
  refine ⟨resp, hfp, ?_⟩
  rcases hcase with ⟨h1, h2, _⟩ | ⟨h1, h2, h3, h4, h5, h6⟩
  · exact Or.inl ⟨h1, h2⟩
  · refine Or.inr ⟨h1, h2, ?_, h6⟩
    intro j hj1 hj2
    have hns := h5 j hj1 hj2
    push_neg at hns
    exact ⟨hns.1, by simpa using hns.2⟩

/-- Counterexample to C1 as stated: against `c1_upstream` the second fetched
page is empty, yet a third page is fetched (the loop only tests the page
counter and the last accumulated timestamp). -/
theorem claim_C1_counterexample :
    (c1_upstream "book" 2 "complete").data? = some [] ∧
    get_completed_items_this_year c1_upstream "book" "2024" "2024" 5
      = .ok (some (.payload [mkItem "2024-06-01T00:00:00Z", mkItem "2024-05-01T00:00:00Z"], 3)) ∧
    (3 : Nat) ≠ 2 := by decide

/-- Witness for the amended C1 at the two-page `boundary_upstream` run. -/
theorem claim_C1_witness :
    ∃ resp, shelf_fetch boundary_upstream "book" 1 = .ok resp ∧
      ((first_stop resp (get_start_date_of_year "2024" "2024") = true ∧ 2 = 1) ∨
       (first_stop resp (get_start_date_of_year "2024" "2024") = false ∧ 2 ≤ 2 ∧
        (∀ j, 2 ≤ j → j < 2 → j ≠ resp.pages ∧
          last_created_lt (acc_through (shelf_fetch boundary_upstream "book") j)
            (get_start_date_of_year "2024" "2024") = false) ∧
        (2 = resp.pages ∨
          last_created_lt (acc_through (shelf_fetch boundary_upstream "book") 2)
            (get_start_date_of_year "2024" "2024") = true))) :=
  claim_C1 boundary_upstream "book" "2024" "2024" 5
    [mkItem "2024-12-31T23:59:59Z", mkItem "2024-01-01T00:00:00Z"] 2
    (by decide) (by decide)

/-- C2 (amended): for an upstream with consistent pagination metadata — every
page up to the reported total `N` fetches successfully and is non-empty,
reports `pages = N` and reports `count` equal to the total number of items
across all `N` pages — if page `K` is the first page whose oldest item falls
before the window start, the aggregation performs exactly `K` upstream
fetches. -/
theorem claim_C2 (upstream : String → Nat → String → RawResp)
    (category year currentYear : String) (fuel N K : Nat)
    (hv : valid_category category = true)
    (hKlo : 1 ≤ K) (hK : K ≤ N) (hfuel : N ≤ fuel + 1)
    (hok : ∀ j, 1 ≤ j → j ≤ N → ∃ p, shelf_fetch upstream category j = .ok p ∧
      p.data ≠ [] ∧ p.pages = N ∧
      p.count = (acc_through (shelf_fetch upstream category) N).length)
    (hbefore : ∀ j, 1 ≤ j → j < K →
      last_created_lt (page_items (shelf_fetch upstream category) j)
        (get_start_date_of_year year currentYear) = false)
    (hhit : last_created_lt (page_items (shelf_fetch upstream category) K)
        (get_start_date_of_year year currentYear) = true) :
    get_completed_items_this_year upstream category year currentYear fuel
      = .ok (some (.payload (window_filter (get_start_date_of_year year currentYear)
          (get_end_date_of_year year currentYear)
          (acc_through (shelf_fetch upstream category) K)), K)) := by
  obtain ⟨p1, hfp1, hne1, hpg1, hct1⟩ := hok 1 le_rfl (by omega)
  have hacc1 : acc_through (shelf_fetch upstream category) 1 = p1.data := by
    simp [acc_through, page_items_of_ok hfp1]
  rw [get_completed_items_valid_eq hv, aggregate_year, hfp1]
  simp only
  rcases Nat.eq_or_lt_of_le hKlo with hK1 | hK2
  · have hstop : first_stop p1 (get_start_date_of_year year currentYear) = true := by
      have hl : last_created_lt p1.data (get_start_date_of_year year currentYear) = true := by
        rw [← page_items_of_ok hfp1, hK1]
        exact hhit
      simp [first_stop, hl]
    rw [if_pos hstop, ← hK1, hacc1]
  · have hN2 : 2 ≤ N := le_trans hK2 hK
    obtain ⟨p2, hfp2, hne2, _, _⟩ := hok 2 (by omega) hN2
    have hlen2 : (acc_through (shelf_fetch upstream category) 2).length
        = p1.data.length + p2.data.length := by
      simp [acc_through, page_items_of_ok hfp1, page_items_of_ok hfp2]
    have hcount : p1.data.length < (acc_through (shelf_fetch upstream category) N).length := by
      have hmono := acc_through_length_mono (shelf_fetch upstream category) hN2
      have hp2 : 0 < p2.data.length := List.length_pos.mpr hne2
      omega
    have hstop : first_stop p1 (get_start_date_of_year year currentYear) = false := by
      rw [first_stop]
      have e1 : p1.data.isEmpty = false := by
        cases hl : p1.data with
        | nil => exact absurd hl hne1
        | cons a l => rfl
      have e2 : (p1.count == p1.data.length) = false := by
        rw [beq_eq_false_iff_ne, hct1]
        omega
      have e3 : (p1.pages == 1) = false := by
        rw [beq_eq_false_iff_ne, hpg1]
        omega
      have e4 : last_created_lt p1.data (get_start_date_of_year year currentYear) = false := by
        rw [← page_items_of_ok hfp1]
        exact hbefore 1 le_rfl hK2
      rw [e1, e2, e3, e4]
      rfl
    rw [if_neg (by rw [hstop]; exact Bool.false_ne_true)]
    rw [show p1.data = acc_through (shelf_fetch upstream category) 1 from hacc1.symm, hpg1]
    rw [fetch_loop_reaches (shelf_fetch upstream category)
      (get_start_date_of_year year currentYear) (get_end_date_of_year year currentYear)
      N K hK
      (fun j hj1 hj2 => by
        obtain ⟨p, hp1, hp2, _, _⟩ := hok j (by omega) (by omega)
        exact ⟨p, hp1, hp2⟩)
      hbefore hhit fuel 1 le_rfl hK2 (by omega)]

/-- Counterexample to C2 as stated: `c2_upstream` is newest-first and
non-increasing across pages and page 2 is the first whose oldest item falls
before the 2024 window, yet only one fetch happens because the first page's
reported `count` equals its own length. -/
theorem claim_C2_counterexample :
    last_created_lt (page_items (shelf_fetch c2_upstream "book") 1)
        "2024-01-01T00:00:00Z" = false ∧
    last_created_lt (page_items (shelf_fetch c2_upstream "book") 2)
        "2024-01-01T00:00:00Z" = true ∧
    ("2023-06-01T00:00:00Z" : String) ≤ "2024-06-01T00:00:00Z" ∧
    get_completed_items_this_year c2_upstream "book" "2024" "2024" 5
      = .ok (some (.payload [mkItem "2024-06-01T00:00:00Z"], 1)) ∧
    (1 : Nat) ≠ 2 := by decide

/-- Witness for the amended C2 on the consistent two-page shelf. -/
theorem claim_C2_witness :
    get_completed_items_this_year consistent_upstream "book" "2024" "2024" 2
      = .ok (some (.payload (window_filter (get_start_date_of_year "2024" "2024")
          (get_end_date_of_year "2024" "2024")
          (acc_through (shelf_fetch consistent_upstream "book") 2)), 2)) :=
  claim_C2 consistent_upstream "book" "2024" "2024" 2 2 2
    (by decide) (by decide) (by decide) (by decide)
    (by
      intro j h1 h2
      interval_cases j
      · exact ⟨_, rfl, by decide, by decide, by decide⟩
      · exact ⟨_, rfl, by decide, by decide, by decide⟩)
    (by
      intro j h1 h2
      interval_cases j
      decide)
    (by decide)

/-- C3: the returned payload consists exactly of the accumulated items whose
`created_time` lies in the inclusive window `[start, end]`; accumulated items
strictly before the start (fetched only to detect the boundary) are excluded,
and items exactly on either boundary are included. -/
theorem claim_C3 (upstream : String → Nat → String → RawResp)
    (category year currentYear : String) (fuel : Nat) (d : List ShelfItem) (n : Nat)
    (hv : valid_category category = true)
    (h : get_completed_items_this_year upstream category year currentYear fuel
        = .ok (some (.payload d, n))) :
    (∀ it, it ∈ d ↔ (it ∈ acc_through (shelf_fetch upstream category) n ∧
        get_start_date_of_year year currentYear ≤ it.created_time ∧
        it.created_time ≤ get_end_date_of_year year currentYear)) ∧
    (∀ it, it ∈ acc_through (shelf_fetch upstream category) n →
        it.created_time < get_start_date_of_year year currentYear → it ∉ d) ∧
    (get_start_date_of_year year currentYear ≤ get_end_date_of_year year currentYear →
      ∀ it, it ∈ acc_through (shelf_fetch upstream category) n →
        (it.created_time = get_start_date_of_year year currentYear ∨
         it.created_time = get_end_date_of_year year currentYear) → it ∈ d) := by
  have hagg := get_completed_items_payload_inv hv h
  obtain ⟨resp, hfp, hacc, hcase⟩ := aggregate_year_spec hagg
  have hd : d = window_filter (get_start_date_of_year year currentYear)
      (get_end_date_of_year year currentYear)
      (acc_through (shelf_fetch upstream category) n) := by
    rcases hcase with ⟨_, hn, hdd⟩ | ⟨_, _, hdd, _⟩
    · subst hn
      rw [hacc]
      exact hdd
    · exact hdd
  have hmem : ∀ it, it ∈ d ↔ (it ∈ acc_through (shelf_fetch upstream category) n ∧
      get_start_date_of_year year currentYear ≤ it.created_time ∧
      it.created_time ≤ get_end_date_of_year year currentYear) := by
    intro it
    rw [hd, window_filter]
    simp [List.mem_filter, in_window, Bool.and_eq_true, decide_eq_true_eq]
  refine ⟨hmem, ?_, ?_⟩
  · intro it hin hlt hmemd
    exact absurd ((hmem it).mp hmemd).2.1 (not_le.mpr hlt)
  · intro hse it hin hor
    apply (hmem it).mpr
    rcases hor with he | he
    · exact ⟨hin, le_of_eq he.symm, he ▸ hse⟩
    · exact ⟨hin, he ▸ hse, le_of_eq he⟩

/-- Witness for C3: both boundary items of 2024 are returned, the older item
fetched on the boundary-detecting page is not. -/
theorem claim_C3_witness :
    mkItem "2024-01-01T00:00:00Z"
        ∈ [mkItem "2024-12-31T23:59:59Z", mkItem "2024-01-01T00:00:00Z"] ∧
    mkItem "2024-12-31T23:59:59Z"
        ∈ [mkItem "2024-12-31T23:59:59Z", mkItem "2024-01-01T00:00:00Z"] ∧
    mkItem "2023-12-31T23:59:59Z"
        ∉ [mkItem "2024-12-31T23:59:59Z", mkItem "2024-01-01T00:00:00Z"] := by
  have h := claim_C3 boundary_upstream "book" "2024" "2024" 5
    [mkItem "2024-12-31T23:59:59Z", mkItem "2024-01-01T00:00:00Z"] 2 (by decide) (by decide)
  refine ⟨?_, ?_, ?_⟩
  · exact h.2.2 (by decide) _ (by decide) (Or.inl (by decide))
  · exact h.2.2 (by decide) _ (by decide) (Or.inr (by decide))
  · exact h.2.1 _ (by decide) (by decide)

/-- C10: whenever the first page reports `pages = P ≥ 1` (and the fuel covers
`P` iterations), the aggregation finishes — normally or by propagating an
upstream error — after at most `max 1 P` upstream fetches, whatever the
pages contain; the precondition `P ≥ 1` is essential: against
`pages_zero_upstream` (which reports `pages = 0` and always has one more
fresh item) no amount of fuel suffices, i.e. the Python loop never
terminates. -/
theorem claim_C10 :
    (∀ (upstream : String → Nat → String → RawResp)
        (category year currentYear : String) (fuel : Nat),
      valid_category category = true →
      1 ≤ (upstream category 1 "complete").pages →
      (upstream category 1 "complete").pages ≤ fuel →
      fetches_bounded (get_completed_items_this_year upstream category year currentYear fuel)
        (max 1 (upstream category 1 "complete").pages) = true) ∧
    (∀ fuel, get_completed_items_this_year pages_zero_upstream "book" "2024" "2024" fuel
      = .ok none) := by
  constructor
  · intro upstream category year currentYear fuel hv hP hfuel
    rw [get_completed_items_valid_eq hv]
    cases hd : (upstream category 1 "complete").data? with
    | none =>
      have hfp : shelf_fetch upstream category 1 = .error (upstream category 1 "complete") := by
        simp [shelf_fetch, get_shelf_items_from_neodb, hd]
      rw [aggregate_year, hfp]
      simp [fetches_bounded]
    | some its =>
      have hfp : shelf_fetch upstream category 1
          = .ok { data := its.map process_item,
                  count := (upstream category 1 "complete").count,
                  pages := (upstream category 1 "complete").pages } := by
        simp [shelf_fetch, get_shelf_items_from_neodb, hd]
      rw [aggregate_year, hfp]
      simp only
      by_cases hstop : first_stop
          { data := its.map process_item,
            count := (upstream category 1 "complete").count,
            pages := (upstream category 1 "complete").pages }
          (get_start_date_of_year year currentYear) = true
      · rw [if_pos hstop]
        simp [fetches_bounded]
      · rw [if_neg hstop]
        have hP1 : (upstream category 1 "complete").pages ≠ 1 := by
          intro h1
          apply hstop
          simp [first_stop, h1]
        rcases fetch_loop_bounded (shelf_fetch upstream category)
            (get_start_date_of_year year currentYear)
            (get_end_date_of_year year currentYear)
            (upstream category 1 "complete").pages fuel 1 (its.map process_item)
            (by omega) (by omega) with ⟨r, m, heq, hm⟩ | ⟨dd, m, heq, hm⟩
        · rw [heq]
          simp only [fetches_bounded]
          simpa using Or.inr hm
        · rw [heq]
          simp only [fetches_bounded]
          simpa using Or.inr hm
  · intro fuel
    rw [get_completed_items_valid_eq (by decide)]
    have hfp : shelf_fetch pages_zero_upstream "book" 1
        = .ok { data := [process_item (mkItem "2024-06-01T00:00:00Z")],
                count := 2, pages := 0 } := rfl
    rw [aggregate_year, hfp]
    simp only
    rw [if_neg (by decide)]
    rw [show get_start_date_of_year "2024" "2024" = "2024-01-01T00:00:00Z" from by decide]
    rw [pages_zero_loop]

/-- Witness for the bound of C10 on the consistent two-page shelf. -/
theorem claim_C10_witness :
    fetches_bounded (get_completed_items_this_year consistent_upstream "book" "2024" "2024" 2)
      (max 1 (consistent_upstream "book" 1 "complete").pages) = true :=
  claim_C10.1 consistent_upstream "book" "2024" "2024" 2 (by decide) (by decide) (by decide)

end Savoria
